import Mathlib

/-!
Shallow embedding of the analysis request pipeline of the
foundry-sample-charlotte-toolkit repository.

The repository has three UI surfaces, each a React component whose event
handlers form the request coordinator:
* `src/ui/pages/ui-page/src/App.tsx` — the standalone page with a chat
  interface (`handleChatSubmit`) and a one-shot log analyzer
  (`handleAnalyzeLogs`), both calling the `handle_triage_request` RPC;
* `src/ui/extensions/azure-analyst/src/App.tsx` — the detection panel
  with `handleAnalyzeClick` issuing a raw HTTP fetch to `azure_analyzer`;
* `src/ui/extensions/azure-analyst/src/extension.tsx` — a variant using
  `falcon.fn.execute` with a `type`/`data` argument shape;
* `src/ui/extensions/ui-extension/src/App.tsx` — the triage extension
  rendering the `name`/`severity`/`tactic` display fields.

Each `async` handler is split at its `await` point into a synchronous
dispatch function, returning the updated component state together with
the list of Transport calls it issued, and a completion function applied
to the transport outcome.  React `useState` setters become explicit
state-record updates; local variables captured across the `await`
(such as `newHistory`) become explicit parameters of the completion
function.  JavaScript string truthiness (`s` is truthy iff nonempty) and
the `||` fallback chains are modelled explicitly.
-/

/-- JavaScript truthiness of a string: truthy iff nonempty. -/
def jsTruthy (s : String) : Bool := !(s == "")

/-- JavaScript truthiness of a possibly-absent string field:
`undefined` is falsy, a present string is truthy iff nonempty. -/
def jsTruthyOpt (o : Option String) : Bool :=
  match o with
  | some s => jsTruthy s
  | none => false

/-- The JavaScript `o || d` fallback on a possibly-absent string field:
the field's value when present and truthy (nonempty), else `d`. -/
def jsOr (o : Option String) (d : String) : String :=
  match o with
  | some s => if jsTruthy s then s else d
  | none => d

/-- ASCII whitespace, the characters `String.prototype.trim` strips that
occur in this code base. -/
def jsWs (c : Char) : Bool := c == ' ' || c == '\t' || c == '\n' || c == '\r'

/-- JavaScript `String.prototype.trim`: strip leading and trailing
whitespace. -/
def jsTrim (s : String) : String :=
  String.mk (((s.data.dropWhile jsWs).reverse.dropWhile jsWs).reverse)

/-- Role of a chat turn (the `role` field of the `chatHistory` entries in
`src/ui/pages/ui-page/src/App.tsx`, line 9). -/
inductive Role where
  | user
  | assistant
  deriving DecidableEq

/-- One entry of the `chatHistory` state array: a role plus content. -/
structure Turn where
  role : Role
  content : String
  deriving DecidableEq

/-- Argument shape of the `handle_triage_request` RPC issued by the
ui-page component: either a log-analysis payload (line 37) or a chat
message payload (line 64). -/
inductive TriageArg where
  | logs (logs : String)
  | message (message : String)
  deriving DecidableEq

/-- The `useState` fields of the ui-page component
(`src/ui/pages/ui-page/src/App.tsx`, lines 6-11).  `falconConnected`
stands for the `falcon` handle being non-null. -/
structure PageState where
  falconConnected : Bool
  logs : String
  chatInput : String
  chatHistory : List Turn
  loading : Bool
  error : Option String
  deriving DecidableEq

/-- Body of a resolved `falcon.functions.post` response as the ui-page
component reads it: a `status` marker, the analysis text in `response`,
and an optional `message` used on failure. -/
structure TriageResponse where
  status : String
  response : String
  message : Option String
  deriving DecidableEq

/-- Outcome of the awaited `falcon.functions.post` call: the promise
resolves with a possibly-null body, or rejects. -/
inductive PostOutcome where
  | resolved (body : Option TriageResponse)
  | rejected
  deriving DecidableEq

/-- Synchronous prefix of `handleChatSubmit`
(`src/ui/pages/ui-page/src/App.tsx`, lines 52-64): return unchanged when
the falcon handle is null or the trimmed input is empty; otherwise
capture the message, clear the input, set loading, clear the error,
append the user turn, and issue the RPC.  Returns the new state and the
Transport calls issued. -/
def handleChatSubmit (s : PageState) : PageState × List TriageArg :=
  if !s.falconConnected || (jsTrim s.chatInput == "") then (s, [])
  else
    let message := s.chatInput
    let newHistory := s.chatHistory ++ [{ role := Role.user, content := message }]
    ({ s with chatInput := "", loading := true, error := none,
              chatHistory := newHistory },
     [TriageArg.message message])

/-- Continuation of `handleChatSubmit` after the awaited RPC settles
(lines 64-76).  `captured` is the local `newHistory` closed over at
dispatch.  A body with status success replaces the history with
`captured` plus the assistant turn; a non-success or null body sets the
error to the body's message or a fallback; a rejected promise sets a
generic error.  The `finally` block clears the loading flag. -/
def chatSubmitComplete (captured : List Turn) (o : PostOutcome)
    (s : PageState) : PageState :=
  match o with
  | PostOutcome.resolved (some body) =>
      if body.status == "success" then
        { s with chatHistory :=
                   captured ++ [{ role := Role.assistant, content := body.response }],
                 loading := false }
      else
        { s with error := some (jsOr body.message "Chat failed."),
                 loading := false }
  | PostOutcome.resolved none =>
      { s with error := some "Chat failed.", loading := false }
  | PostOutcome.rejected =>
      { s with error := some "Error calling AI service.", loading := false }

/-- Synchronous prefix of `handleAnalyzeLogs`
(`src/ui/pages/ui-page/src/App.tsx`, lines 27-37): return unchanged when
the falcon handle is null or the trimmed logs are empty; otherwise set
loading, clear the error, append the user turn embedding the raw logs,
and issue the RPC. -/
def handleAnalyzeLogs (s : PageState) : PageState × List TriageArg :=
  if !s.falconConnected || (jsTrim s.logs == "") then (s, [])
  else
    let newHistory := s.chatHistory ++
      [{ role := Role.user, content := "Analyze these logs:\n" ++ s.logs }]
    ({ s with loading := true, error := none, chatHistory := newHistory },
     [TriageArg.logs s.logs])

/-- Continuation of `handleAnalyzeLogs` after the awaited RPC settles
(lines 37-49); identical to the chat continuation up to the fallback
error string. -/
def analyzeLogsComplete (captured : List Turn) (o : PostOutcome)
    (s : PageState) : PageState :=
  match o with
  | PostOutcome.resolved (some body) =>
      if body.status == "success" then
        { s with chatHistory :=
                   captured ++ [{ role := Role.assistant, content := body.response }],
                 loading := false }
      else
        { s with error := some (jsOr body.message "Analysis failed."),
                 loading := false }
  | PostOutcome.resolved none =>
      { s with error := some "Analysis failed.", loading := false }
  | PostOutcome.rejected =>
      { s with error := some "Error calling AI service.", loading := false }

/-- A click on the Send button (line 160): the button carries
`disabled` while loading or while the trimmed input is empty, so a
click in those states delivers no event; otherwise it invokes
`handleChatSubmit`. -/
def sendButtonClick (s : PageState) : PageState × List TriageArg :=
  if s.loading || (jsTrim s.chatInput == "") then (s, [])
  else handleChatSubmit s

/-- An Enter keypress in the chat input (line 158): the keydown handler
invokes `handleChatSubmit` unconditionally, with no loading guard. -/
def enterKeySubmit (s : PageState) : PageState × List TriageArg :=
  handleChatSubmit s

/-- Whether a `handle_triage_request` outcome is the success case the
ui-page component accepts: a resolved, non-null body whose status field
is the success marker. -/
def postSucceeded (o : PostOutcome) : Bool :=
  match o with
  | PostOutcome.resolved (some body) => body.status == "success"
  | PostOutcome.resolved none => false
  | PostOutcome.rejected => false

theorem jsTrim_eq_empty_of_all_ws (s : String)
    (h : s.data.all jsWs = true) : jsTrim s = "" := by
  have hd : s.data.dropWhile jsWs = [] := by
    rw [List.dropWhile_eq_nil_iff]
    intro x hx
    exact List.all_eq_true.mp h x hx
  simp [jsTrim, hd]

/-- Optional fields of the detection/incident record consulted by the
azure-analyst App component (`DetectionData` interface,
`src/ui/extensions/azure-analyst/src/App.tsx`, lines 12-24); the record
may also carry arbitrary further keys, kept as an association list. -/
structure DetectionData where
  description : Option String := none
  tactic : Option String := none
  technique : Option String := none
  hostname : Option String := none
  host_name : Option String := none
  device_name : Option String := none
  name : Option String := none
  detection_name : Option String := none
  severity : Option String := none
  detection_id : Option String := none
  extra : List (String × String) := []
  deriving DecidableEq

/-- Body of the `azure_analyzer` fetch response as the azure-analyst App
reads it (`AnalysisResponse` interface, lines 26-31): a status marker,
a message used on failure, and the analysis text. -/
structure AnalysisResponse where
  status : String
  message : Option String
  analysis : String
  deriving DecidableEq

/-- The `useState` fields of the azure-analyst App component
(lines 35-38).  The `falcon` handle is unused by the analyzed paths. -/
structure AzureAppState where
  detectionData : Option DetectionData
  isLoading : Bool
  analysisResult : Option AnalysisResponse
  error : Option String
  deriving DecidableEq

/-- The `data` event handler registered in `initializeFalcon`
(lines 49-54): store the new record, clear the previous analysis, clear
the error.  No generation or version token is recorded. -/
def onDataEvent (d : DetectionData) (s : AzureAppState) : AzureAppState :=
  { s with detectionData := some d, analysisResult := none, error := none }

/-- A Transport call issued by the azure-analyst App: an HTTP POST to the
`azure_analyzer` function carrying the record as its body (lines 84-90). -/
inductive FetchRequest where
  | azureAnalyzer (body : DetectionData)
  deriving DecidableEq

/-- Synchronous prefix of `handleAnalyzeClick` (lines 68-90): with no
record available set an error and stop; otherwise set loading, clear the
error, clear the previously displayed result, and issue the fetch. -/
def handleAnalyzeClick (s : AzureAppState) : AzureAppState × List FetchRequest :=
  match s.detectionData with
  | none => ({ s with error := some "No detection data available to analyze" }, [])
  | some d =>
      ({ s with isLoading := true, error := none, analysisResult := none },
       [FetchRequest.azureAnalyzer d])

/-- Outcome of the awaited fetch: the response arrived with an HTTP
status and a parsed JSON body, or the promise chain rejected with an
error value (`isError` tells whether it is an `Error` instance, whose
`msg` is its message). -/
inductive FetchOutcome where
  | resolved (httpStatus : Nat) (body : AnalysisResponse)
  | rejected (isError : Bool) (msg : String)
  deriving DecidableEq

/-- Continuation of `handleAnalyzeClick` after the awaited fetch settles
(lines 92-111).  `response.ok` is an HTTP status in 200-299; on a
non-2xx status the code throws before reading the body, and the catch
block stores the thrown message, so the body is never consulted there.
On a 2xx body with status success the result is stored; on any other
2xx body the error becomes the body's message or a fallback.  The
`finally` block clears the loading flag. -/
def analyzeClickComplete (o : FetchOutcome) (s : AzureAppState) : AzureAppState :=
  match o with
  | FetchOutcome.resolved httpStatus body =>
      if 200 ≤ httpStatus ∧ httpStatus ≤ 299 then
        if body.status == "success" then
          { s with analysisResult := some body, isLoading := false }
        else
          { s with error := some (jsOr body.message "Analysis failed"),
                   isLoading := false }
      else
        { s with error := some ("HTTP error! status: " ++ toString httpStatus),
                 isLoading := false }
  | FetchOutcome.rejected isError msg =>
      { s with error := some (if isError then msg else "An unexpected error occurred"),
               isLoading := false }

/-- Whether a fetch outcome is the success case `handleAnalyzeClick`
accepts: 2xx status and a body whose status field is the success
marker. -/
def fetchSucceeded (o : FetchOutcome) : Bool :=
  match o with
  | FetchOutcome.resolved httpStatus body =>
      if 200 ≤ httpStatus ∧ httpStatus ≤ 299 then body.status == "success"
      else false
  | FetchOutcome.rejected _ _ => false

/-- Optional chaining `detectionData?.f`: `undefined` when the record is
null, else the field. -/
def optField (d : Option DetectionData) (f : DetectionData → Option String) :
    Option String :=
  match d with
  | none => none
  | some dd => f dd

/-- `getHostName` (lines 117-124): the fallback chain
hostname, host_name, device_name, then the sentinel. -/
def getHostName (d : Option DetectionData) : String :=
  jsOr (optField d DetectionData.hostname)
    (jsOr (optField d DetectionData.host_name)
      (jsOr (optField d DetectionData.device_name) "Unknown Device"))

/-- `getDetectionName` (lines 129-131): the fallback chain
name, detection_name, then the sentinel. -/
def getDetectionName (d : Option DetectionData) : String :=
  jsOr (optField d DetectionData.name)
    (jsOr (optField d DetectionData.detection_name) "Unknown Detection")

/-- Modelled from the spec wording, for comparison in claim C5: resolve
a display field by returning the value of the first present, nonempty
entry of the prioritized list, and the sentinel when none is
present. -/
def specFirstPresentAlias (entries : List (Option String)) (sentinel : String) :
    String :=
  match entries with
  | [] => sentinel
  | o :: rest =>
      match o with
      | some v => if v == "" then specFirstPresentAlias rest sentinel else v
      | none => specFirstPresentAlias rest sentinel

theorem specFirstPresentAlias_cons (o : Option String)
    (rest : List (Option String)) (sentinel : String) :
    specFirstPresentAlias (o :: rest) sentinel =
      jsOr o (specFirstPresentAlias rest sentinel) := by
  cases o with
  | none => rfl
  | some v =>
      by_cases hv : v = "" <;>
        simp [specFirstPresentAlias, jsOr, jsTruthy, hv]

/-- Optional fields of the detection record consulted by the
ui-extension component (`DetectionData` interface,
`src/ui/extensions/ui-extension/src/App.tsx`, lines 6-14); further keys
are kept as an association list. -/
structure UiExtDetection where
  description : Option String := none
  tactic : Option String := none
  technique : Option String := none
  hostname : Option String := none
  name : Option String := none
  severity : Option String := none
  extra : List (String × String) := []
  deriving DecidableEq

/-- The rendered Detection display field
(`src/ui/extensions/ui-extension/src/App.tsx`, line 96):
`detectionData.name || 'Unknown'`. -/
def uiExtDisplayName (d : UiExtDetection) : String := jsOr d.name "Unknown"

/-- The rendered Severity display field (line 97):
`detectionData.severity || 'Unknown'`. -/
def uiExtDisplaySeverity (d : UiExtDetection) : String := jsOr d.severity "Unknown"

/-- The rendered Tactic display field (line 98):
`detectionData.tactic || 'Unknown'`. -/
def uiExtDisplayTactic (d : UiExtDetection) : String := jsOr d.tactic "Unknown"

/-- The empty record, every field absent. -/
def emptyUiExtDetection : UiExtDetection := {}

/-- Fields of the record consulted by the azure-analyst
`extension.tsx` variant (`DetectionData` interface,
`src/ui/extensions/azure-analyst/src/extension.tsx`, lines 13-20). -/
structure ExtRecord where
  id : String := ""
  detection_id : Option String := none
  incident_id : Option String := none
  type : Option String := none
  created_timestamp : Option Nat := none
  extra : List (String × String) := []
  deriving DecidableEq

/-- Argument of the `falcon.fn.execute` call to `azure_analyzer`
(`src/ui/extensions/azure-analyst/src/extension.tsx`, lines 53-56): a
`type` discriminator plus the record as `data`. -/
structure AnalyzerArg where
  type : String
  data : ExtRecord
  deriving DecidableEq

/-- The `AnalysisResult` state of the extension variant
(`src/ui/extensions/azure-analyst/src/extension.tsx`, lines 5-11). -/
structure ExtAnalysis where
  status : String
  analysis : Option String := none
  message : Option String := none
  timestamp : Option String := none
  model : Option String := none
  deriving DecidableEq

/-- The `useState` fields of the extension variant (lines 24-27). -/
structure ExtState where
  data : Option ExtRecord
  analysis : Option ExtAnalysis
  loading : Bool
  error : Option String
  deriving DecidableEq

/-- Synchronous prefix of `handleAnalyze`
(`src/ui/extensions/azure-analyst/src/extension.tsx`, lines 41-56): with
no record available set an error and stop; otherwise set loading, clear
the error, store a loading marker, and issue the RPC whose `type` is
incident exactly when `data.incident_id` is truthy, forwarding the
record unchanged as `data`. -/
def extHandleAnalyze (s : ExtState) : ExtState × List AnalyzerArg :=
  match s.data with
  | none => ({ s with error := some "No detection or incident data available" }, [])
  | some d =>
      ({ s with loading := true, error := none,
                analysis := some { status := "loading" } },
       [{ type := if jsTruthyOpt d.incident_id then "incident" else "detection",
          data := d }])

theorem guard_false_of_valid_chat (s : PageState)
    (hconn : s.falconConnected = true) (hinput : jsTrim s.chatInput ≠ "") :
    (!s.falconConnected || (jsTrim s.chatInput == "")) = false := by
  simp [hconn, hinput]

/-- A concrete idle page state with chat input, used by witnesses. -/
def chatIdleState : PageState :=
  { falconConnected := true, logs := "", chatInput := "hi",
    chatHistory := [], loading := false, error := none }

/-- A concrete page state whose chat input and logs are whitespace-only,
used by witnesses. -/
def wsOnlyState : PageState :=
  { falconConnected := true, logs := " \t ", chatInput := "  ",
    chatHistory := [], loading := false, error := none }

/-- A concrete idle page state with both chat input and logs present,
used by the C3 witness. -/
def chatAndLogsState : PageState :=
  { falconConnected := true, logs := "log line", chatInput := "hi",
    chatHistory := [], loading := false, error := none }

/-- Claim C3: for both exchange kinds of the ui-page surface — the chat
submit and the one-shot log analysis — when the remote response body has
status success and response text `x`, the conversation after completion
equals the conversation at dispatch (the history after the user turn was
appended) with exactly one appended assistant turn of content `x`, and
its last turn is the assistant turn `x`. -/
theorem c3_success_round_trip (s : PageState) (x : String) (m : Option String)
    (hconn : s.falconConnected = true) :
    (jsTrim s.chatInput ≠ "" →
      (handleChatSubmit s).1.chatHistory
        = s.chatHistory ++ [{ role := Role.user, content := s.chatInput }] ∧
      (chatSubmitComplete (handleChatSubmit s).1.chatHistory
          (PostOutcome.resolved (some { status := "success", response := x, message := m }))
          (handleChatSubmit s).1).chatHistory
        = (handleChatSubmit s).1.chatHistory
            ++ [{ role := Role.assistant, content := x }] ∧
      (chatSubmitComplete (handleChatSubmit s).1.chatHistory
          (PostOutcome.resolved (some { status := "success", response := x, message := m }))
          (handleChatSubmit s).1).chatHistory.getLast?
        = some { role := Role.assistant, content := x }) ∧
    (jsTrim s.logs ≠ "" →
      (handleAnalyzeLogs s).1.chatHistory
        = s.chatHistory
            ++ [{ role := Role.user, content := "Analyze these logs:\n" ++ s.logs }] ∧
      (analyzeLogsComplete (handleAnalyzeLogs s).1.chatHistory
          (PostOutcome.resolved (some { status := "success", response := x, message := m }))
          (handleAnalyzeLogs s).1).chatHistory
        = (handleAnalyzeLogs s).1.chatHistory
            ++ [{ role := Role.assistant, content := x }] ∧
      (analyzeLogsComplete (handleAnalyzeLogs s).1.chatHistory
          (PostOutcome.resolved (some { status := "success", response := x, message := m }))
          (handleAnalyzeLogs s).1).chatHistory.getLast?
        = some { role := Role.assistant, content := x }) := by
  constructor
  · intro hinput
    have hguard := guard_false_of_valid_chat s hconn hinput
    refine ⟨?_, ?_, ?_⟩
    · simp [handleChatSubmit, hguard]
    · rfl
    · show ((handleChatSubmit s).1.chatHistory
          ++ [({ role := Role.assistant, content := x } : Turn)]).getLast?
        = some { role := Role.assistant, content := x }
      rw [List.getLast?_append_cons]
      rfl
  · intro hlogs
    have hguard : (!s.falconConnected || (jsTrim s.logs == "")) = false := by
      simp [hconn, hlogs]
    refine ⟨?_, ?_, ?_⟩
    · simp [handleAnalyzeLogs, hguard]
    · rfl
    · show ((handleAnalyzeLogs s).1.chatHistory
          ++ [({ role := Role.assistant, content := x } : Turn)]).getLast?
        = some { role := Role.assistant, content := x }
      rw [List.getLast?_append_cons]
      rfl

/-- Witness for C3 at a concrete state carrying both a chat input and
logs, with a concrete success response. -/
theorem c3_success_round_trip_witness :
    (jsTrim chatAndLogsState.chatInput ≠ "" →
      (handleChatSubmit chatAndLogsState).1.chatHistory
        = chatAndLogsState.chatHistory
            ++ [{ role := Role.user, content := chatAndLogsState.chatInput }] ∧
      (chatSubmitComplete (handleChatSubmit chatAndLogsState).1.chatHistory
          (PostOutcome.resolved (some { status := "success", response := "X", message := none }))
          (handleChatSubmit chatAndLogsState).1).chatHistory
        = (handleChatSubmit chatAndLogsState).1.chatHistory
            ++ [{ role := Role.assistant, content := "X" }] ∧
      (chatSubmitComplete (handleChatSubmit chatAndLogsState).1.chatHistory
          (PostOutcome.resolved (some { status := "success", response := "X", message := none }))
          (handleChatSubmit chatAndLogsState).1).chatHistory.getLast?
        = some { role := Role.assistant, content := "X" }) ∧
    (jsTrim chatAndLogsState.logs ≠ "" →
      (handleAnalyzeLogs chatAndLogsState).1.chatHistory
        = chatAndLogsState.chatHistory
            ++ [{ role := Role.user,
                  content := "Analyze these logs:\n" ++ chatAndLogsState.logs }] ∧
      (analyzeLogsComplete (handleAnalyzeLogs chatAndLogsState).1.chatHistory
          (PostOutcome.resolved (some { status := "success", response := "X", message := none }))
          (handleAnalyzeLogs chatAndLogsState).1).chatHistory
        = (handleAnalyzeLogs chatAndLogsState).1.chatHistory
            ++ [{ role := Role.assistant, content := "X" }] ∧
      (analyzeLogsComplete (handleAnalyzeLogs chatAndLogsState).1.chatHistory
          (PostOutcome.resolved (some { status := "success", response := "X", message := none }))
          (handleAnalyzeLogs chatAndLogsState).1).chatHistory.getLast?
        = some { role := Role.assistant, content := "X" }) :=
  c3_success_round_trip chatAndLogsState "X" none rfl

/-- Claim C6: a failed completion appends no assistant turn and removes
no turn: the transcript after the failure equals the transcript at
dispatch, which still ends in the user turn appended at start. -/
theorem c6_failure_preserves_transcript (s : PageState) (o : PostOutcome)
    (hconn : s.falconConnected = true)
    (hinput : jsTrim s.chatInput ≠ "")
    (hfail : postSucceeded o = false) :
    (chatSubmitComplete (handleChatSubmit s).1.chatHistory o
        (handleChatSubmit s).1).chatHistory
      = (handleChatSubmit s).1.chatHistory ∧
    (handleChatSubmit s).1.chatHistory
      = s.chatHistory ++ [{ role := Role.user, content := s.chatInput }] := by
  have hguard := guard_false_of_valid_chat s hconn hinput
  constructor
  · cases o with
    | resolved body =>
        cases body with
        | none => rfl
        | some b =>
            have hb : (b.status == "success") = false := by
              simpa [postSucceeded] using hfail
            simp [chatSubmitComplete, hb]
    | rejected => rfl
  · simp [handleChatSubmit, hguard]

/-- Witness for C6 at a concrete state and a concrete failure outcome. -/
theorem c6_failure_preserves_transcript_witness :
    (chatSubmitComplete (handleChatSubmit chatIdleState).1.chatHistory
        (PostOutcome.resolved
          (some { status := "error", response := "", message := some "boom" }))
        (handleChatSubmit chatIdleState).1).chatHistory
      = (handleChatSubmit chatIdleState).1.chatHistory ∧
    (handleChatSubmit chatIdleState).1.chatHistory
      = chatIdleState.chatHistory
          ++ [{ role := Role.user, content := chatIdleState.chatInput }] :=
  c6_failure_preserves_transcript chatIdleState
    (PostOutcome.resolved (some { status := "error", response := "", message := some "boom" }))
    rfl (by decide) (by decide)

/-- Claim C7: an empty or whitespace-only input is rejected before
dispatch by both handlers: the state is unchanged and no Transport call
is issued, so the input reaches neither the normalizer nor the remote
endpoint. -/
theorem c7_whitespace_rejected (s : PageState)
    (hchat : s.chatInput.data.all jsWs = true)
    (hlogs : s.logs.data.all jsWs = true) :
    handleChatSubmit s = (s, []) ∧ handleAnalyzeLogs s = (s, []) := by
  have h1 : jsTrim s.chatInput = "" := jsTrim_eq_empty_of_all_ws _ hchat
  have h2 : jsTrim s.logs = "" := jsTrim_eq_empty_of_all_ws _ hlogs
  constructor
  · simp [handleChatSubmit, h1]
  · simp [handleAnalyzeLogs, h2]

/-- Witness for C7 at a concrete whitespace-only state. -/
theorem c7_whitespace_rejected_witness :
    handleChatSubmit wsOnlyState = (wsOnlyState, []) ∧
    handleAnalyzeLogs wsOnlyState = (wsOnlyState, []) :=
  c7_whitespace_rejected wsOnlyState (by decide) (by decide)

/-- Claim C4: when every consulted alias of the name, severity and
tactic display fields is absent — in particular for the empty record —
normalization yields the sentinel Unknown for each field; the lookups
are total functions, so no input makes them fail. -/
theorem c4_missing_fields_unknown (d : UiExtDetection)
    (hn : d.name = none) (hs : d.severity = none) (ht : d.tactic = none) :
    uiExtDisplayName d = "Unknown" ∧
    uiExtDisplaySeverity d = "Unknown" ∧
    uiExtDisplayTactic d = "Unknown" := by
  refine ⟨?_, ?_, ?_⟩ <;>
    simp [uiExtDisplayName, uiExtDisplaySeverity, uiExtDisplayTactic, jsOr, hn, hs, ht]

/-- Witness for C4 at the empty record. -/
theorem c4_missing_fields_unknown_witness :
    uiExtDisplayName emptyUiExtDetection = "Unknown" ∧
    uiExtDisplaySeverity emptyUiExtDetection = "Unknown" ∧
    uiExtDisplayTactic emptyUiExtDetection = "Unknown" :=
  c4_missing_fields_unknown emptyUiExtDetection rfl rfl rfl

/-- Claim C5: the host display field follows the prioritized alias order
hostname, host_name, device_name: for every record, the resolved value
equals the first present, nonempty alias in that order, and the sentinel
when none is present. -/
theorem c5_host_alias_priority (d : DetectionData) :
    getHostName (some d)
      = specFirstPresentAlias [d.hostname, d.host_name, d.device_name]
          "Unknown Device" := by
  rw [specFirstPresentAlias_cons, specFirstPresentAlias_cons,
    specFirstPresentAlias_cons]
  rfl

/-- Claim C9: with a record available, the dispatched RPC argument has
type incident exactly when the record's incident_id field is present and
truthy, and detection otherwise; the record itself is forwarded
unmodified as the data argument. -/
theorem c9_rpc_type_selection (s : ExtState) (d : ExtRecord)
    (h : s.data = some d) :
    (extHandleAnalyze s).2
      = [{ type := if jsTruthyOpt d.incident_id then "incident" else "detection",
           data := d }] ∧
    (jsTruthyOpt d.incident_id = true →
      (extHandleAnalyze s).2.map AnalyzerArg.type = ["incident"]) ∧
    (jsTruthyOpt d.incident_id = false →
      (extHandleAnalyze s).2.map AnalyzerArg.type = ["detection"]) := by
  refine ⟨?_, ?_, ?_⟩
  · simp [extHandleAnalyze, h]
  · intro ht
    simp [extHandleAnalyze, h, ht]
  · intro hf
    simp [extHandleAnalyze, h, hf]

/-- A concrete extension state holding an incident record, used by the
C9 witness. -/
def extIncidentState : ExtState :=
  { data := some { id := "42", incident_id := some "inc-1" },
    analysis := none, loading := false, error := none }

/-- Witness for C9 at a concrete incident-backed state. -/
theorem c9_rpc_type_selection_witness :
    (extHandleAnalyze extIncidentState).2
      = [{ type := if jsTruthyOpt (some "inc-1") then "incident" else "detection",
           data := { id := "42", incident_id := some "inc-1" } }] ∧
    (jsTruthyOpt (some "inc-1") = true →
      (extHandleAnalyze extIncidentState).2.map AnalyzerArg.type = ["incident"]) ∧
    (jsTruthyOpt (some "inc-1") = false →
      (extHandleAnalyze extIncidentState).2.map AnalyzerArg.type = ["detection"]) := by
  have h := c9_rpc_type_selection extIncidentState
    { id := "42", incident_id := some "inc-1" } rfl
  exact h

/-- The page state reached while the first chat request is Pending, with
fresh text typed into the input: used by claim C1. -/
def c1PendingState : PageState :=
  { (handleChatSubmit chatIdleState).1 with chatInput := "again" }

/-- Counterexample to claim C1: from an idle state a first start enters
Pending; an Enter-key start delivered while Pending is not rejected — it
appends a second user-facing turn and issues a second Transport call, so
the two starts produce two Transport invocations, not one. -/
theorem c1_counterexample :
    (handleChatSubmit chatIdleState).1.loading = true ∧
    (enterKeySubmit c1PendingState).2 = [TriageArg.message "again"] ∧
    (handleChatSubmit chatIdleState).2.length
        + (enterKeySubmit c1PendingState).2.length = 2 ∧
    (enterKeySubmit c1PendingState).1.chatHistory.length
      = (handleChatSubmit chatIdleState).1.chatHistory.length + 1 := by
  decide

/-- Claim C1 as amended: rejection of a start while Pending happens only
at the send button, which is disabled while loading, so a click start
while Pending delivers no event and issues no Transport call; the submit
handler itself performs no Pending check, so an Enter-key start while
Pending, with a connected client and nonempty trimmed input, appends a
second user-facing turn and issues a second Transport call. -/
theorem c1_amended (s : PageState) (hload : s.loading = true) :
    sendButtonClick s = (s, []) ∧
    (s.falconConnected = true → jsTrim s.chatInput ≠ "" →
      (enterKeySubmit s).2 = [TriageArg.message s.chatInput] ∧
      (enterKeySubmit s).1.chatHistory
        = s.chatHistory ++ [{ role := Role.user, content := s.chatInput }]) := by
  constructor
  · simp [sendButtonClick, hload]
  · intro hconn hinput
    have hguard := guard_false_of_valid_chat s hconn hinput
    constructor <;> simp [enterKeySubmit, handleChatSubmit, hguard]

/-- Witness for the amended C1 at the concrete Pending state. -/
theorem c1_amended_witness :
    sendButtonClick c1PendingState = (c1PendingState, []) ∧
    (c1PendingState.falconConnected = true → jsTrim c1PendingState.chatInput ≠ "" →
      (enterKeySubmit c1PendingState).2 = [TriageArg.message c1PendingState.chatInput] ∧
      (enterKeySubmit c1PendingState).1.chatHistory
        = c1PendingState.chatHistory
            ++ [{ role := Role.user, content := c1PendingState.chatInput }]) :=
  c1_amended c1PendingState (by decide)

/-- A concrete record A, the one displayed when the request starts. -/
def recA : DetectionData := { name := some "A" }

/-- A concrete record B, the one whose arrival resets the surface. -/
def recB : DetectionData := { name := some "B" }

/-- The azure-analyst surface idle on record A. -/
def azIdleA : AzureAppState :=
  { detectionData := some recA, isLoading := false,
    analysisResult := none, error := none }

/-- The stale success body produced for record A's request. -/
def staleBody : AnalysisResponse :=
  { status := "success", message := none, analysis := "analysis of A" }

/-- Counterexample to claim C2: a request starts on record A, record B
arrives and resets the surface (clearing the result), and then A's
result arrives — the code has no generation token, so the stale result
is applied and is visible against record B's display. -/
theorem c2_counterexample :
    (handleAnalyzeClick azIdleA).2 = [FetchRequest.azureAnalyzer recA] ∧
    (onDataEvent recB (handleAnalyzeClick azIdleA).1).analysisResult = none ∧
    (analyzeClickComplete (FetchOutcome.resolved 200 staleBody)
        (onDataEvent recB (handleAnalyzeClick azIdleA).1)).analysisResult
      = some staleBody ∧
    (analyzeClickComplete (FetchOutcome.resolved 200 staleBody)
        (onDataEvent recB (handleAnalyzeClick azIdleA).1)).detectionData
      = some recB := by
  decide

/-- Claim C2 as amended: the code captures no generation token and makes
no staleness check; a successful result of a request dispatched before a
reset is applied after the reset, overwriting the reset-cleared result
while the displayed record is already the new one. -/
theorem c2_amended (s : AzureAppState) (a b : DetectionData)
    (body : AnalysisResponse)
    (ha : s.detectionData = some a) (hok : body.status = "success") :
    (handleAnalyzeClick s).2 = [FetchRequest.azureAnalyzer a] ∧
    (onDataEvent b (handleAnalyzeClick s).1).analysisResult = none ∧
    (analyzeClickComplete (FetchOutcome.resolved 200 body)
        (onDataEvent b (handleAnalyzeClick s).1)).analysisResult = some body ∧
    (analyzeClickComplete (FetchOutcome.resolved 200 body)
        (onDataEvent b (handleAnalyzeClick s).1)).detectionData = some b := by
  have h200 : (200 ≤ 200 ∧ 200 ≤ 299) := by norm_num
  have hb : (body.status == "success") = true := by simp [hok]
  refine ⟨?_, ?_, ?_, ?_⟩
  · simp [handleAnalyzeClick, ha]
  · rfl
  · simp [analyzeClickComplete, onDataEvent, h200, hb]
  · simp [analyzeClickComplete, onDataEvent, h200, hb]

/-- Witness for the amended C2 at concrete records and a concrete stale
body. -/
theorem c2_amended_witness :
    (handleAnalyzeClick azIdleA).2 = [FetchRequest.azureAnalyzer recA] ∧
    (onDataEvent recB (handleAnalyzeClick azIdleA).1).analysisResult = none ∧
    (analyzeClickComplete
        (FetchOutcome.resolved 200
          { status := "success", message := none, analysis := "late" })
        (onDataEvent recB (handleAnalyzeClick azIdleA).1)).analysisResult
      = some { status := "success", message := none, analysis := "late" } ∧
    (analyzeClickComplete
        (FetchOutcome.resolved 200
          { status := "success", message := none, analysis := "late" })
        (onDataEvent recB (handleAnalyzeClick azIdleA).1)).detectionData
      = some recB :=
  c2_amended azIdleA recA recB
    { status := "success", message := none, analysis := "late" } rfl rfl

/-- The azure-analyst surface while record A's request is Pending. -/
def azPendingA : AzureAppState :=
  { detectionData := some recA, isLoading := true,
    analysisResult := none, error := none }

/-- Counterexample to claim C8: on an HTTP 429 completion whose body
carries a message, the user-visible error text is the thrown HTTP
template string including the status code, not the body's message. -/
theorem c8_counterexample :
    (analyzeClickComplete
        (FetchOutcome.resolved 429
          { status := "error", message := some "rate limited", analysis := "" })
        azPendingA).error = some "HTTP error! status: 429" ∧
    (analyzeClickComplete
        (FetchOutcome.resolved 429
          { status := "error", message := some "rate limited", analysis := "" })
        azPendingA).error ≠ some "rate limited" := by
  decide

/-- Claim C8 as amended: a non-2xx completion puts the coordinator in
the error state with the loading flag cleared, and the error text is the
template string HTTP error carrying the status code; the response body's
message is never consulted on non-2xx — the message-when-present, else
generic-fallback rule applies instead to 2xx bodies whose status field
is not the success marker. -/
theorem c8_amended (s : AzureAppState) (code : Nat) (body : AnalysisResponse)
    (h : ¬(200 ≤ code ∧ code ≤ 299)) :
    (analyzeClickComplete (FetchOutcome.resolved code body) s).error
      = some ("HTTP error! status: " ++ toString code) ∧
    (analyzeClickComplete (FetchOutcome.resolved code body) s).isLoading = false ∧
    (analyzeClickComplete (FetchOutcome.resolved code body) s).analysisResult
      = s.analysisResult ∧
    (∀ body2 : AnalysisResponse, body2.status ≠ "success" →
      (analyzeClickComplete (FetchOutcome.resolved 200 body2) s).error
        = some (jsOr body2.message "Analysis failed")) := by
  have h200 : ((200:Nat) ≤ 200 ∧ (200:Nat) ≤ 299) := by norm_num
  refine ⟨?_, ?_, ?_, ?_⟩
  · simp [analyzeClickComplete, h]
  · simp [analyzeClickComplete, h]
  · simp [analyzeClickComplete, h]
  · intro body2 hb2
    have hb : (body2.status == "success") = false := by simp [hb2]
    simp [analyzeClickComplete, h200, hb]

/-- Witness for the amended C8 at status 503 and a concrete body. -/
theorem c8_amended_witness :
    (analyzeClickComplete
        (FetchOutcome.resolved 503
          { status := "error", message := some "overloaded", analysis := "" })
        azPendingA).error = some ("HTTP error! status: " ++ toString 503) ∧
    (analyzeClickComplete
        (FetchOutcome.resolved 503
          { status := "error", message := some "overloaded", analysis := "" })
        azPendingA).isLoading = false ∧
    (analyzeClickComplete
        (FetchOutcome.resolved 503
          { status := "error", message := some "overloaded", analysis := "" })
        azPendingA).analysisResult = azPendingA.analysisResult ∧
    (∀ body2 : AnalysisResponse, body2.status ≠ "success" →
      (analyzeClickComplete (FetchOutcome.resolved 200 body2) azPendingA).error
        = some (jsOr body2.message "Analysis failed")) :=
  c8_amended azPendingA 503
    { status := "error", message := some "overloaded", analysis := "" }
    (by norm_num)

theorem analyzeClickComplete_failed (o : FetchOutcome) (st : AzureAppState)
    (hfail : fetchSucceeded o = false) :
    (analyzeClickComplete o st).analysisResult = st.analysisResult ∧
    (analyzeClickComplete o st).error ≠ none := by
  cases o with
  | resolved code body =>
      by_cases hc : 200 ≤ code ∧ code ≤ 299
      · have hb : (body.status == "success") = false := by
          simpa [fetchSucceeded, hc] using hfail
        simp [analyzeClickComplete, hc, hb]
      · simp [analyzeClickComplete, hc]
  | rejected isErr msg =>
      simp [analyzeClickComplete]

/-- Claim C10: starting a re-analysis clears the previously displayed
successful result before the Transport call is issued; when that call
then fails, the prior result is not restored — the terminal state holds
the error and no analysis result. -/
theorem c10_failed_reanalyze_not_atomic (s : AzureAppState)
    (d : DetectionData) (r : AnalysisResponse) (o : FetchOutcome)
    (hd : s.detectionData = some d)
    (_hr : s.analysisResult = some r)
    (hfail : fetchSucceeded o = false) :
    (handleAnalyzeClick s).1.analysisResult = none ∧
    (handleAnalyzeClick s).2 = [FetchRequest.azureAnalyzer d] ∧
    (analyzeClickComplete o (handleAnalyzeClick s).1).analysisResult = none ∧
    (analyzeClickComplete o (handleAnalyzeClick s).1).error ≠ none := by
  have h1 : (handleAnalyzeClick s).1
      = { s with isLoading := true, error := none, analysisResult := none } := by
    simp [handleAnalyzeClick, hd]
  have h2 := analyzeClickComplete_failed o (handleAnalyzeClick s).1 hfail
  refine ⟨?_, ?_, ?_, ?_⟩
  · rw [h1]
  · simp [handleAnalyzeClick, hd]
  · rw [h2.1, h1]
  · exact h2.2

/-- The azure-analyst surface displaying a prior successful analysis of
record A, used by the C10 witness. -/
def azSucceededA : AzureAppState :=
  { detectionData := some recA, isLoading := false,
    analysisResult := some staleBody, error := none }

/-- Witness for C10 at a concrete state and a concrete network
failure. -/
theorem c10_failed_reanalyze_not_atomic_witness :
    (handleAnalyzeClick azSucceededA).1.analysisResult = none ∧
    (handleAnalyzeClick azSucceededA).2 = [FetchRequest.azureAnalyzer recA] ∧
    (analyzeClickComplete (FetchOutcome.rejected true "network down")
        (handleAnalyzeClick azSucceededA).1).analysisResult = none ∧
    (analyzeClickComplete (FetchOutcome.rejected true "network down")
        (handleAnalyzeClick azSucceededA).1).error ≠ none :=
  c10_failed_reanalyze_not_atomic azSucceededA recA staleBody
    (FetchOutcome.rejected true "network down") rfl rfl rfl
